import Mathlib

/-!
Verification of the `odoo-kit` audit scripts.

Shallow embedding of `scripts/audit/lib.py`,
`scripts/audit/checks/check_domain_policy.py` and
`scripts/audit/checks/check_mailgun.py`.

Python strings are modelled as `List Char`; Python `str.lower` /
`str.strip` are modelled for the ASCII range (the only range the
repository's data exercises).  Environment variables are modelled as
`Option (List Char)` (`none` = unset).  External observations
(subprocess outcome, DNS answers, HTTP response) are parameters of the
embedded functions, so each check is a pure function of the observed
world.
-/

namespace Audit

/-- Characters of a Lean string literal. -/
def str (s : String) : List Char := s.toList

/-- ASCII whitespace, as used by Python `str.strip` and by the regex
class `\s` on the inputs occurring here. -/
def isSpaceChar (c : Char) : Bool :=
  c == ' ' || c == '\t' || c == '\n' || c == '\r' ||
  c == Char.ofNat 11 || c == Char.ofNat 12

/-- Python `str.lower` (ASCII case mapping). -/
def pyLower (s : List Char) : List Char := s.map Char.toLower

/-- Python `str.strip()`: drop leading and trailing whitespace. -/
def pyStrip (s : List Char) : List Char :=
  ((s.dropWhile isSpaceChar).reverse.dropWhile isSpaceChar).reverse

/-- Does `needle` occur at the very start of `hay`? -/
def leadsWith : List Char → List Char → Bool
  | [], _ => true
  | _ :: _, [] => false
  | a :: as, b :: bs => a == b && leadsWith as bs

/-- Python `needle in hay` (substring containment). -/
def pyIn (needle : List Char) : List Char → Bool
  | [] => needle.isEmpty
  | c :: t => leadsWith needle (c :: t) || pyIn needle t

/-- Python `s.split("\n")`. -/
def pySplitNl (s : List Char) : List (List Char) := s.splitOn '\n'

/-- Decimal digits of a natural number (Python str interpolation of an int). -/
def natChars (n : Nat) : List Char := (Nat.repr n).toList

/-- JSON-serializable payload values carried in a result's `data` mapping. -/
inductive JVal where
  | s (v : List Char)
  | n (v : Nat)
  | arr (vs : List JVal)
  | obj (fs : List (List Char × JVal))
  | jnull

/-- Status tag of a check result. -/
inductive Status where
  | ok
  | fail
  | warn
  | skip
deriving DecidableEq

/-- The result dictionary built by the result constructors in `lib.py`. -/
structure Result where
  status : Status
  code : List Char
  data : List (List Char × JVal)

/-- First value bound to key `k` in an association list (Python dict lookup
for the literal dicts built by the checks). -/
def assoc : List (List Char × JVal) → List Char → Option JVal
  | [], _ => none
  | p :: t, k => if p.1 = k then some p.2 else assoc t k

/-- Look up a key in a result's `data` mapping. -/
def lookupData (r : Result) (k : List Char) : Option JVal := assoc r.data k

/-- lib.py `ok`. -/
def ok (code : List Char) (data : List (List Char × JVal)) : Result :=
  ⟨Status.ok, code, data⟩

/-- lib.py `fail`. -/
def fail (code : List Char) (data : List (List Char × JVal)) : Result :=
  ⟨Status.fail, code, data⟩

/-- lib.py `warn`. -/
def warn (code : List Char) (data : List (List Char × JVal)) : Result :=
  ⟨Status.warn, code, data⟩

/-- lib.py `skip`. -/
def skip (code : List Char) (reason : List Char) : Result :=
  ⟨Status.skip, code, [(str "reason", JVal.s reason)]⟩

/-- Python `value[-n:]` for a non-negative `n`: the empty slice bound `-0`
denotes the whole string, otherwise the last `n` characters. -/
def pySliceLast (s : List Char) (n : Nat) : List Char :=
  if n = 0 then s else s.drop (s.length - n)

/-- lib.py `redact(value, visible_chars)`. -/
def redact (value : List Char) (visible_chars : Nat) : List Char :=
  if value.isEmpty then str "<empty>"
  else if value.length ≤ visible_chars then List.replicate value.length '*'
  else List.replicate (value.length - visible_chars) '*' ++
    pySliceLast value visible_chars

/-- lib.py `get_secret(name, default)`: the environment variable's value
(or the default when unset), stripped. -/
def get_secret (v : Option (List Char)) (default : List Char) : List Char :=
  pyStrip (v.getD default)

/-- lib.py `has_secret(name)`: set and non-empty after stripping. -/
def has_secret (v : Option (List Char)) : Bool :=
  !(pyStrip (v.getD [])).isEmpty

/-- Outcome of the `subprocess.run` call inside `run_cmd`: either the
process completed, or one of the exceptions `run_cmd` catches was raised. -/
inductive ProcOutcome where
  | completed (returncode : Int) (stdout stderr : List Char)
  | timedOut
  | calledProcessError (returncode : Int) (stdout stderr : Option (List Char))
  | fileNotFound (msg : List Char)
  | otherExc (msg : List Char)

/-- The dictionary returned by lib.py `run_cmd`.  The `error` key is only
present in the exception branches, hence an `Option`. -/
structure CmdResult where
  success : Bool
  returncode : Int
  stdout : Option (List Char)
  stderr : Option (List Char)
  error : Option (List Char)

/-- The command wrapper of lib.py (named `run_cmd` there; that name is a
reserved word in Lean): every branch of the Python try/except, as a total
function of the subprocess outcome. -/
def runCmd (outcome : ProcOutcome) (timeoutSecs : Nat) (capture : Bool) :
    CmdResult :=
  match outcome with
  | .completed rc out err =>
      ⟨rc == 0, rc,
        if capture then some out else none,
        if capture then some err else none,
        none⟩
  | .timedOut =>
      ⟨false, -1, none,
        some (str "Command timed out after " ++ natChars timeoutSecs ++ str "s"),
        some (str "timeout")⟩
  | .calledProcessError rc out err =>
      ⟨false, rc,
        if capture then out else none,
        if capture then err else none,
        some (str "nonzero_exit")⟩
  | .fileNotFound msg =>
      ⟨false, -1, none, some msg, some (str "command_not_found")⟩
  | .otherExc msg =>
      ⟨false, -1, none, some msg, some (str "exception")⟩

/-- Python truthiness of the optional captured `stdout`. -/
def truthyOpt : Option (List Char) → Bool
  | none => false
  | some s => !s.isEmpty

namespace DomainPolicy

/-- Every meta-pattern of `check_domain_policy.py` is a literal, or two
literals joined by one gap: `\s+` (one or more whitespace characters) or
`.*` (any characters except a newline). -/
inductive Gap where
  | ws
  | dot

/-- May the gap consume exactly the characters `g`? -/
def gapOk : Gap → List Char → Bool
  | .ws, g => !g.isEmpty && g.all isSpaceChar
  | .dot, g => g.all (fun c => c != '\n')

/-- Does `gap` followed by the literal `b` match a prefix of `s`
(with arbitrary characters allowed after `b`, as in `re.search`)? -/
def gapThen (gap : Gap) (b s : List Char) : Bool :=
  (List.range (s.length + 1)).any
    (fun k => gapOk gap (s.take k) && leadsWith b (s.drop k))

/-- `re.search` of the pattern `a` ⬝ gap ⬝ `b` in `line`: the match may
start at any position. -/
def searchPair (a : List Char) (gap : Gap) (b line : List Char) : Bool :=
  (List.range (line.length + 1)).any
    (fun i => leadsWith a (line.drop i) && gapThen gap b (line.drop (i + a.length)))

/-- Disjunction of the ten `meta_patterns`, searched in the already
lowercased line (the patterns' own letters are written lowercase, which
together with lowercasing the line models `re.IGNORECASE`). -/
def metaMatch (l : List Char) : Bool :=
  searchPair (str "no") Gap.ws (str "insightpulseai.net") l ||
  searchPair (str "forbidden") Gap.dot (str "insightpulseai.net") l ||
  searchPair (str "checking") Gap.dot (str "insightpulseai.net") l ||
  searchPair (str "insightpulseai.net") Gap.dot (str "forbidden") l ||
  searchPair (str "block") Gap.dot (str "insightpulseai.net") l ||
  searchPair (str "ensure") Gap.dot (str "insightpulseai.net") l ||
  pyIn (str "insightpulseai\\.net") l ||
  searchPair (str "fail") Gap.dot (str "insightpulseai.net") l ||
  searchPair (str "pattern") Gap.dot (str "insightpulseai.net") l ||
  searchPair (str "policy") Gap.dot (str "insightpulseai.net") l

/-- check_domain_policy.py `is_policy_meta_reference(line)`. -/
def is_policy_meta_reference (line : List Char) : Bool :=
  metaMatch (pyLower line)

/-- The single entry of `FORBIDDEN_PATTERNS` (the regex source text). -/
def forbiddenPattern : List Char := str "insightpulseai\\.net"

/-- The `real_violations` list computed by `run` from the ripgrep output:
stdout stripped, split on newlines, meta-references filtered out. -/
def realViolations (r : CmdResult) : List (List Char) :=
  (pySplitNl (pyStrip (r.stdout.getD []))).filter
    (fun m => !(is_policy_meta_reference m))

/-- Data payload of the `domain_policy_ok` result. -/
def okData : List (List Char × JVal) :=
  [(str "policy", JVal.s (str "no insightpulseai.net references")),
   (str "canonical_domain", JVal.s (str "insightpulseai.com")),
   (str "mailgun_domain", JVal.s (str "mg.insightpulseai.com")),
   (str "patterns_checked", JVal.arr [JVal.s forbiddenPattern])]

/-- The tail of `run` after the violation scan: the per-pattern `results`
bookkeeping for the single forbidden pattern, collapsed — an error entry is
recorded iff the ripgrep exit code is neither 0 nor 1. -/
def afterScan (r : CmdResult) : Result :=
  if r.returncode ≠ 0 ∧ r.returncode ≠ 1 then
    fail (str "domain_check_error")
      [(str "errors", JVal.arr
          [JVal.obj [(str "pattern", JVal.s forbiddenPattern),
                     (str "status", JVal.s (str "error")),
                     (str "error",
                       match r.stderr with
                       | some s => JVal.s s
                       | none => JVal.jnull)]]),
       (str "message", JVal.s (str "Could not complete domain policy scan"))]
  else
    ok (str "domain_policy_ok") okData

/-- check_domain_policy.py `run()`, as a function of the outcome of the
single ripgrep invocation. -/
def run (r : CmdResult) : Result :=
  if r.returncode = 0 ∧ truthyOpt r.stdout = true then
    if realViolations r ≠ [] then
      fail (str "forbidden_domain_found")
        [(str "pattern", JVal.s forbiddenPattern),
         (str "match_count", JVal.n ((realViolations r).take 50).length),
         (str "matches", JVal.arr (((realViolations r).take 50).map JVal.s)),
         (str "message", JVal.s
           (str "Found " ++ natChars ((realViolations r).take 50).length ++
            str " actual usage(s) of forbidden domain pattern \x27" ++
            forbiddenPattern ++
            str "\x27. All references must use \x27insightpulseai.com\x27.")),
         (str "fix", JVal.s
           (str "Run: find . -type f -not -path \x27*/.git/*\x27 -print0 | xargs -0 perl -pi -e \x27s/insightpulseai\\.net/insightpulseai.com/g\x27"))]
    else afterScan r
  else afterScan r

end DomainPolicy

namespace Mailgun

/-- World observed by check_mailgun.py `run()`: the four environment
variables it reads and the outcomes of its DNS queries and of the Mailgun
API call ( `apiSuccess` / `apiStatus` / `apiError` are the `success`,
`status_code` and `error` fields of the `http_get` result). -/
structure MailgunEnv where
  rootDomainVar : Option (List Char)
  expectedMgVar : Option (List Char)
  mailgunDomainVar : Option (List Char)
  apiKeyVar : Option (List Char)
  mxRaw : List Char
  rootTxt : List Char
  dmarcTxt : List Char
  mgTxt : List Char
  apiSuccess : Bool
  apiStatus : Option Nat
  apiError : Option (List Char)

/-- Module constant `ROOT_DOMAIN = os.getenv("ROOT_DOMAIN", "insightpulseai.com").strip()`. -/
def rootDomain (e : MailgunEnv) : List Char :=
  pyStrip (e.rootDomainVar.getD (str "insightpulseai.com"))

/-- Module constant `EXPECTED_MG_DOMAIN = os.getenv("EXPECTED_MG_DOMAIN", "mg." + ROOT_DOMAIN).strip()`. -/
def expectedMg (e : MailgunEnv) : List Char :=
  pyStrip (e.expectedMgVar.getD (str "mg." ++ rootDomain e))

/-- Module constant `ZOHO_MX_RECORDS`. -/
def ZOHO_MX_RECORDS : List (List Char) :=
  [str "mx.zoho.com", str "mx2.zoho.com", str "mx3.zoho.com"]

/-- Module constant `REQUIRED_SPF_INCLUDES`. -/
def REQUIRED_SPF_INCLUDES : List (List Char) :=
  [str "include:zohomail.com", str "include:mailgun.org"]

/-- One `(name, status, detail)` tuple appended to the `results` list. -/
def checkEntry (name status : List Char) (v : JVal) : JVal :=
  JVal.arr [JVal.s name, JVal.s status, v]

/-- The `zoho_found` list of step 2: expected Zoho MX hosts that occur as
substrings of the lowercased `dig` output. -/
def zohoFound (e : MailgunEnv) : List (List Char) :=
  ZOHO_MX_RECORDS.filter (fun z => pyIn z (pyLower e.mxRaw))

/-- Step 1: MAILGUN_DOMAIN must match the expected subdomain.  An early
`return` in the Python code is an `Except.error`. -/
def step1 (domain expected : List Char) (results : List JVal) :
    Except Result (List JVal) :=
  if domain ≠ [] then
    if domain ≠ expected then
      Except.error (fail (str "mailgun_domain_mismatch")
        [(str "expected", JVal.s expected),
         (str "actual", JVal.s domain),
         (str "message", JVal.s
           (str "MAILGUN_DOMAIN must be \x27" ++ expected ++
            str "\x27, not \x27" ++ domain ++ str "\x27"))])
    else
      Except.ok (results ++
        [checkEntry (str "mailgun_domain") (str "ok") (JVal.s expected)])
  else
    Except.ok (results ++
      [checkEntry (str "mailgun_domain") (str "skip")
        (JVal.s (str "MAILGUN_DOMAIN not set"))])

/-- Step 2: root MX must be Zoho.  An empty query result only records a
warn entry; a non-empty result with fewer than 3 Zoho hosts returns. -/
def step2 (root mxRaw : List Char) (results : List JVal) :
    Except Result (List JVal) :=
  if pyLower mxRaw = [] then
    Except.ok (results ++
      [checkEntry (str "root_mx") (str "warn")
        (JVal.s (str "Could not query MX records"))])
  else
    if (ZOHO_MX_RECORDS.filter (fun z => pyIn z (pyLower mxRaw))).length < 3 then
      Except.error (warn (str "root_mx_not_zoho")
        [(str "root_domain", JVal.s root),
         (str "mx_records", JVal.arr ((pySplitNl (pyLower mxRaw)).map JVal.s)),
         (str "expected", JVal.arr (ZOHO_MX_RECORDS.map JVal.s)),
         (str "found", JVal.arr
           ((ZOHO_MX_RECORDS.filter (fun z => pyIn z (pyLower mxRaw))).map JVal.s)),
         (str "message", JVal.s
           (str "Root domain MX should point to Zoho for email receiving"))])
    else
      Except.ok (results ++
        [checkEntry (str "root_mx") (str "ok")
          (JVal.arr
            ((ZOHO_MX_RECORDS.filter (fun z => pyIn z (pyLower mxRaw))).map JVal.s))])

/-- Step 3: root SPF must exist and include both Zoho and Mailgun. -/
def step3 (root rootTxt : List Char) (results : List JVal) :
    Except Result (List JVal) :=
  if pyIn (str "v=spf1") rootTxt = false then
    Except.error (warn (str "spf_missing")
      [(str "root_domain", JVal.s root),
       (str "spf", JVal.s (if rootTxt = [] then str "<empty>" else rootTxt)),
       (str "message", JVal.s (str "Root domain has no SPF record"))])
  else
    if REQUIRED_SPF_INCLUDES.filter (fun inc => !(pyIn inc rootTxt)) ≠ [] then
      Except.error (warn (str "spf_missing_includes")
        [(str "root_domain", JVal.s root),
         (str "spf", JVal.s rootTxt),
         (str "missing", JVal.arr
           ((REQUIRED_SPF_INCLUDES.filter (fun inc => !(pyIn inc rootTxt))).map JVal.s)),
         (str "message", JVal.s
           (str "Root SPF missing: " ++
            List.intercalate (str ", ")
              (REQUIRED_SPF_INCLUDES.filter (fun inc => !(pyIn inc rootTxt)))))])
    else
      Except.ok (results ++
        [checkEntry (str "root_spf") (str "ok") (JVal.s rootTxt)])

/-- Step 4: DMARC record must exist. -/
def step4 (root dmarcTxt : List Char) (results : List JVal) :
    Except Result (List JVal) :=
  if pyIn (str "v=DMARC1") dmarcTxt = false then
    Except.error (warn (str "dmarc_missing")
      [(str "root_domain", JVal.s root),
       (str "dmarc", JVal.s (if dmarcTxt = [] then str "<empty>" else dmarcTxt)),
       (str "message", JVal.s (str "DMARC record missing or invalid"))])
  else
    Except.ok (results ++
      [checkEntry (str "dmarc") (str "ok") (JVal.s dmarcTxt)])

/-- Step 5: the Mailgun subdomain SPF must exist and include mailgun.org. -/
def step5 (expected mgTxt : List Char) (results : List JVal) :
    Except Result (List JVal) :=
  if pyIn (str "v=spf1") mgTxt = false then
    Except.error (warn (str "mg_spf_missing")
      [(str "mg_domain", JVal.s expected),
       (str "spf", JVal.s (if mgTxt = [] then str "<empty>" else mgTxt)),
       (str "message", JVal.s
         (str "Mailgun subdomain " ++ expected ++ str " has no SPF record"))])
  else
    if pyIn (str "include:mailgun.org") mgTxt = false then
      Except.error (warn (str "mg_spf_invalid")
        [(str "mg_domain", JVal.s expected),
         (str "spf", JVal.s mgTxt),
         (str "message", JVal.s
           (str "Mailgun subdomain SPF should include mailgun.org"))])
    else
      Except.ok (results ++
        [checkEntry (str "mg_spf") (str "ok") (JVal.s mgTxt)])

/-- Step 6: Mailgun API connectivity, when credentials are provided. -/
def step6 (domain api_key root expected : List Char) (apiSuccess : Bool)
    (apiStatus : Option Nat) (apiError : Option (List Char))
    (results : List JVal) : Result :=
  if api_key = [] ∨ domain = [] then
    ok (str "mailgun_dns_checks_passed")
      [(str "checks", JVal.arr (results ++
          [checkEntry (str "mailgun_api") (str "skip")
            (JVal.s (str "Credentials not provided"))])),
       (str "root_domain", JVal.s root),
       (str "mg_domain", JVal.s expected)]
  else
    if apiSuccess = false then
      if apiStatus = some 401 then
        fail (str "mailgun_auth_failed")
          [(str "domain", JVal.s domain),
           (str "api_key", JVal.s (redact api_key 4)),
           (str "error", JVal.s (str "Authentication failed - check API key"))]
      else
        if apiStatus = some 404 then
          fail (str "mailgun_domain_not_found")
            [(str "domain", JVal.s domain),
             (str "error", JVal.s
               (str "Domain \x27" ++ domain ++
                str "\x27 not found in Mailgun account"))]
        else
          warn (str "mailgun_api_error")
            [(str "domain", JVal.s domain),
             (str "status_code",
               match apiStatus with
               | some n => JVal.n n
               | none => JVal.jnull),
             (str "error",
               match apiError with
               | some m => JVal.s m
               | none => JVal.s (str "Unknown error"))]
    else
      ok (str "mailgun_full_check_passed")
        [(str "checks", JVal.arr (results ++
            [checkEntry (str "mailgun_api") (str "ok") (JVal.s domain)])),
         (str "root_domain", JVal.s root),
         (str "mg_domain", JVal.s domain),
         (str "api_key", JVal.s (redact api_key 4))]

/-- The body of `run()` after the two `get_secret` reads and the module
constants are in hand: the six steps chained with early return. -/
def runCore (domain api_key root expected mxRaw rootTxt dmarcTxt mgTxt :
    List Char) (apiSuccess : Bool) (apiStatus : Option Nat)
    (apiError : Option (List Char)) : Result :=
  match step1 domain expected [] with
  | .error r => r
  | .ok r1 =>
    match step2 root mxRaw r1 with
    | .error r => r
    | .ok r2 =>
      match step3 root rootTxt r2 with
      | .error r => r
      | .ok r3 =>
        match step4 root dmarcTxt r3 with
        | .error r => r
        | .ok r4 =>
          match step5 expected mgTxt r4 with
          | .error r => r
          | .ok r5 =>
            step6 domain api_key root expected apiSuccess apiStatus apiError r5

/-- check_mailgun.py `run()`. -/
def run (e : MailgunEnv) : Result :=
  runCore (get_secret e.mailgunDomainVar []) (get_secret e.apiKeyVar [])
    (rootDomain e) (expectedMg e) e.mxRaw e.rootTxt e.dmarcTxt e.mgTxt
    e.apiSuccess e.apiStatus e.apiError

/-- Copy of an observed world with the MAILGUN_DOMAIN and MAILGUN_API_KEY
variables replaced (used to compare runs on different environments). -/
def setDomainKey (e : MailgunEnv) (d k : Option (List Char)) : MailgunEnv :=
  ⟨e.rootDomainVar, e.expectedMgVar, d, k, e.mxRaw, e.rootTxt, e.dmarcTxt,
   e.mgTxt, e.apiSuccess, e.apiStatus, e.apiError⟩

/-- The `results` list accumulated when steps 1 through 5 all pass with
MAILGUN_DOMAIN set. -/
def passedChecks (e : MailgunEnv) : List JVal :=
  [checkEntry (str "mailgun_domain") (str "ok") (JVal.s (expectedMg e)),
   checkEntry (str "root_mx") (str "ok") (JVal.arr ((zohoFound e).map JVal.s)),
   checkEntry (str "root_spf") (str "ok") (JVal.s e.rootTxt),
   checkEntry (str "dmarc") (str "ok") (JVal.s e.dmarcTxt),
   checkEntry (str "mg_spf") (str "ok") (JVal.s e.mgTxt)]

end Mailgun

/-- Ripgrep outcome with two matching lines, the second of which is a
policy meta-reference. -/
def rgHit : CmdResult :=
  ⟨true, 0,
   some (str "README.md:3:see https://insightpulseai.net/\ndocs/policy.md:1:no insightpulseai.net references allowed"),
   some [], none⟩

/-- Ripgrep outcome with no matches (exit code 1). -/
def rgNone : CmdResult := ⟨false, 1, some [], some [], none⟩

/-- Ripgrep outcome where the tool itself errored (exit code 2). -/
def rgErr : CmdResult := ⟨false, 2, some [], some (str "rg: error parsing glob"), none⟩

/-- World where nothing is configured and every DNS query came back empty. -/
def mxEmptyEnv : Mailgun.MailgunEnv :=
  ⟨none, none, none, none, [], [], [], [], false, none, none⟩

/-- World whose MX answer carries two of the three expected Zoho hosts. -/
def mxTwoEnv : Mailgun.MailgunEnv :=
  ⟨none, none, none, none, str "10 mx.zoho.com.\n50 mx3.zoho.com.",
   [], [], [], false, none, none⟩

/-- World where all DNS checks pass, credentials are supplied and the
Mailgun API answers HTTP 401. -/
def apiAuthFailEnv : Mailgun.MailgunEnv :=
  ⟨none, none, some (str "mg.insightpulseai.com"), some (str "key-3a7f9c2e"),
   str "10 mx.zoho.com.\n20 mx2.zoho.com.\n50 mx3.zoho.com.",
   str "v=spf1 include:zohomail.com include:mailgun.org ~all",
   str "v=DMARC1; p=quarantine",
   str "v=spf1 include:mailgun.org ~all",
   false, some 401, some (str "HTTP Error 401: Unauthorized")⟩

/-- World where MAILGUN_DOMAIN is set to the wrong value. -/
def mismatchEnv : Mailgun.MailgunEnv :=
  ⟨none, none, some (str "wrong.com"), none, [], [], [], [], false, none, none⟩

/-- World where MAILGUN_DOMAIN is unset but an API key is present. -/
def skipProbeEnv : Mailgun.MailgunEnv :=
  ⟨none, none, none, some (str "key-3a7f9c2e"), [], [], [], [], false, none, none⟩

/-- World used to probe whitespace-only environment variables. -/
def wsProbeEnv : Mailgun.MailgunEnv :=
  ⟨none, none, some (str "mg.insightpulseai.com"), some (str "key-3a7f9c2e"),
   [], [], [], [], true, none, none⟩

/-- Stripping the empty string leaves nothing. -/
theorem pyStrip_nil : pyStrip [] = [] := rfl

/-- Stripping a string made of whitespace leaves nothing. -/
theorem pyStrip_all_space (s : List Char) (h : s.all isSpaceChar = true) :
    pyStrip s = [] := by
  have hd : s.dropWhile isSpaceChar = [] := by
    rw [List.dropWhile_eq_nil_iff]
    intro x hx
    exact List.all_eq_true.mp h x hx
  simp [pyStrip, hd]

/-- C1 (amended): for a non-empty value and a positive `visible_chars`,
`redact` emits a run of mask characters followed by a suffix of the value
of length at most `visible_chars`; and when the value fits inside the
visible window the whole output is mask characters of the value's length. -/
theorem redact_masks_all_but_suffix (value : List Char) (vc : Nat)
    (hv : value ≠ []) (hvc : 1 ≤ vc) :
    (∃ k s, redact value vc = List.replicate k '*' ++ s ∧
      s.length ≤ vc ∧ List.IsSuffix s value) ∧
    (value.length ≤ vc → redact value vc = List.replicate value.length '*') := by
  rcases value with _ | ⟨c, t⟩
  · exact absurd rfl hv
  · constructor
    · by_cases h : (c :: t).length ≤ vc
      · refine ⟨(c :: t).length, [], ?_, by simp, List.nil_suffix⟩
        rw [List.append_nil]
        unfold redact
        rw [if_neg (by simp), if_pos h]
      · refine ⟨(c :: t).length - vc, (c :: t).drop ((c :: t).length - vc),
          ?_, ?_, List.drop_suffix _ _⟩
        · unfold redact
          rw [if_neg (by simp), if_neg h]
          unfold pySliceLast
          rw [if_neg (by omega)]
        · rw [List.length_drop]
          omega
    · intro h
      unfold redact
      rw [if_neg (by simp), if_pos h]

/-- C1 witness: `redact "abcdef" 4` masks all but the last four characters. -/
theorem redact_masks_all_but_suffix_witness :
    (∃ k s, redact (str "abcdef") 4 = List.replicate k '*' ++ s ∧
      s.length ≤ 4 ∧ List.IsSuffix s (str "abcdef")) ∧
    ((str "abcdef").length ≤ 4 →
      redact (str "abcdef") 4 = List.replicate (str "abcdef").length '*') :=
  redact_masks_all_but_suffix (str "abcdef") 4 (by decide) (by decide)

/-- C1 counterexample: the claim fails as stated.  For the empty value
(whose length is at most any `visible_chars`) the output is the sentinel
`"<empty>"`, not a run of mask characters of the input's length; and for
`visible_chars = 0` the Python slice `value[-0:]` denotes the whole string,
so `redact "abc" 0` is `"***abc"` and reveals every character. -/
theorem redact_claim_cx :
    (¬ ∀ (value : List Char) (vc : Nat), value.length ≤ vc →
        redact value vc = List.replicate value.length '*') ∧
    redact (str "abc") 0 = str "***abc" := by
  constructor
  · intro h
    exact absurd (h [] 4 (by decide)) (by decide)
  · decide

/-- C3: a line documenting the policy is a meta-reference; a line actually
using the forbidden domain is not. -/
theorem meta_reference_examples :
    DomainPolicy.is_policy_meta_reference
      (str "no insightpulseai.net references allowed") = true ∧
    DomainPolicy.is_policy_meta_reference
      (str "see https://insightpulseai.net/") = false := by
  decide

/-- C9: `is_policy_meta_reference` only looks at the lowercased line, so
any two case variants of a line get the same answer. -/
theorem meta_reference_case_insensitive (l₁ l₂ : List Char)
    (h : pyLower l₁ = pyLower l₂) :
    DomainPolicy.is_policy_meta_reference l₁ =
      DomainPolicy.is_policy_meta_reference l₂ := by
  unfold DomainPolicy.is_policy_meta_reference
  rw [h]

/-- C9 witness: a mixed-case line and its upper-case variant agree. -/
theorem meta_reference_case_insensitive_witness :
    pyLower (str "No InsightPulseAI.net references") =
      pyLower (str "NO INSIGHTPULSEAI.NET REFERENCES") ∧
    DomainPolicy.is_policy_meta_reference (str "No InsightPulseAI.net references") =
      DomainPolicy.is_policy_meta_reference (str "NO INSIGHTPULSEAI.NET REFERENCES") :=
  ⟨by decide, meta_reference_case_insensitive _ _ (by decide)⟩

/-- C7: the command wrapper maps every subprocess outcome, exceptional or
not, to a returned structure; failures carry `success = false`, a timeout
carries the error kind `timeout`, a missing executable the error kind
`command_not_found`. -/
theorem runCmd_never_raises (oc : ProcOutcome) (t : Nat) (cap : Bool) :
    (oc = ProcOutcome.timedOut →
      (runCmd oc t cap).success = false ∧
      (runCmd oc t cap).error = some (str "timeout")) ∧
    (∀ m, oc = ProcOutcome.fileNotFound m →
      (runCmd oc t cap).success = false ∧
      (runCmd oc t cap).error = some (str "command_not_found")) ∧
    (∀ rc out err, oc = ProcOutcome.completed rc out err →
      (runCmd oc t cap).success = (rc == 0) ∧
      (runCmd oc t cap).error = none) ∧
    (∀ rc out err, oc = ProcOutcome.calledProcessError rc out err →
      (runCmd oc t cap).success = false ∧
      (runCmd oc t cap).error = some (str "nonzero_exit")) ∧
    (∀ m, oc = ProcOutcome.otherExc m →
      (runCmd oc t cap).success = false ∧
      (runCmd oc t cap).error = some (str "exception")) := by
  refine ⟨?_, ?_, ?_, ?_, ?_⟩
  · rintro rfl
    exact ⟨rfl, rfl⟩
  · rintro m rfl
    exact ⟨rfl, rfl⟩
  · rintro rc out err rfl
    exact ⟨rfl, rfl⟩
  · rintro rc out err rfl
    exact ⟨rfl, rfl⟩
  · rintro m rfl
    exact ⟨rfl, rfl⟩

/-- C7 witness: a timed-out `rg` run and a missing `dig` binary are both
reported in the returned structure. -/
theorem runCmd_never_raises_witness :
    ((runCmd ProcOutcome.timedOut 60 true).success = false ∧
     (runCmd ProcOutcome.timedOut 60 true).error = some (str "timeout")) ∧
    ((runCmd (ProcOutcome.fileNotFound (str "No such file or directory: dig")) 30 true).success = false ∧
     (runCmd (ProcOutcome.fileNotFound (str "No such file or directory: dig")) 30 true).error =
       some (str "command_not_found")) :=
  ⟨(runCmd_never_raises ProcOutcome.timedOut 60 true).1 rfl,
   (runCmd_never_raises (ProcOutcome.fileNotFound (str "No such file or directory: dig")) 30 true).2.1 _ rfl⟩

/-- C10: a whitespace-only environment variable behaves exactly like an
unset one: `get_secret` strips it to the empty string, `has_secret` is
false, and the Mailgun check runs identically whether MAILGUN_DOMAIN and
MAILGUN_API_KEY are whitespace-only or absent. -/
theorem whitespace_env_like_unset (w₁ w₂ : List Char) (e : Mailgun.MailgunEnv)
    (h₁ : w₁.all isSpaceChar = true) (h₂ : w₂.all isSpaceChar = true) :
    get_secret (some w₁) [] = [] ∧
    get_secret (some w₁) [] = get_secret none [] ∧
    has_secret (some w₁) = false ∧
    has_secret none = false ∧
    Mailgun.run (Mailgun.setDomainKey e (some w₁) (some w₂)) =
      Mailgun.run (Mailgun.setDomainKey e none none) ∧
    Mailgun.run (Mailgun.setDomainKey e (some w₁) e.apiKeyVar) =
      Mailgun.run (Mailgun.setDomainKey e none e.apiKeyVar) ∧
    Mailgun.run (Mailgun.setDomainKey e e.mailgunDomainVar (some w₂)) =
      Mailgun.run (Mailgun.setDomainKey e e.mailgunDomainVar none) := by
  have hs₁ : pyStrip w₁ = [] := pyStrip_all_space w₁ h₁
  have hs₂ : pyStrip w₂ = [] := pyStrip_all_space w₂ h₂
  refine ⟨?_, ?_, ?_, ?_, ?_, ?_, ?_⟩
  · simp [get_secret, hs₁]
  · simp [get_secret, hs₁, pyStrip_nil]
  · simp [has_secret, hs₁]
  · simp [has_secret, pyStrip_nil]
  · simp [Mailgun.run, Mailgun.setDomainKey, Mailgun.rootDomain,
      Mailgun.expectedMg, get_secret, hs₁, hs₂, pyStrip_nil]
  · simp [Mailgun.run, Mailgun.setDomainKey, Mailgun.rootDomain,
      Mailgun.expectedMg, get_secret, hs₁, pyStrip_nil]
  · simp [Mailgun.run, Mailgun.setDomainKey, Mailgun.rootDomain,
      Mailgun.expectedMg, get_secret, hs₂, pyStrip_nil]

/-- C10 witness: a tab-and-space MAILGUN_DOMAIN and a blank MAILGUN_API_KEY
act like unset variables on a concrete world. -/
theorem whitespace_env_like_unset_witness :
    get_secret (some (str " \t ")) [] = [] ∧
    has_secret (some (str " \t ")) = false ∧
    Mailgun.run (Mailgun.setDomainKey wsProbeEnv (some (str " \t ")) (some (str "  "))) =
      Mailgun.run (Mailgun.setDomainKey wsProbeEnv none none) := by
  have h := whitespace_env_like_unset (str " \t ") (str "  ") wsProbeEnv
    (by decide) (by decide)
  exact ⟨h.1, h.2.2.1, h.2.2.2.2.1⟩

/-- C4: the domain policy check answers `ok` when ripgrep exits 1 (no
matches) or exits 0 with every match filtered out as a meta-reference, and
`fail` with code `forbidden_domain_found` when a non-meta violation exists;
the fail's `matches` list is capped at 50, `match_count` equals that list's
length, and a `fix` remediation command is present in the data. -/
theorem domain_policy_run_cases (r : CmdResult) :
    (r.returncode = 1 →
      DomainPolicy.run r = ok (str "domain_policy_ok") DomainPolicy.okData) ∧
    (r.returncode = 0 → DomainPolicy.realViolations r = [] →
      DomainPolicy.run r = ok (str "domain_policy_ok") DomainPolicy.okData) ∧
    (r.returncode = 0 → truthyOpt r.stdout = true →
      DomainPolicy.realViolations r ≠ [] →
      (DomainPolicy.run r).status = Status.fail ∧
      (DomainPolicy.run r).code = str "forbidden_domain_found" ∧
      lookupData (DomainPolicy.run r) (str "matches") =
        some (JVal.arr (((DomainPolicy.realViolations r).take 50).map JVal.s)) ∧
      ((DomainPolicy.realViolations r).take 50).length ≤ 50 ∧
      lookupData (DomainPolicy.run r) (str "match_count") =
        some (JVal.n ((DomainPolicy.realViolations r).take 50).length) ∧
      (lookupData (DomainPolicy.run r) (str "fix")).isSome = true) := by
  refine ⟨?_, ?_, ?_⟩
  · intro h1
    unfold DomainPolicy.run
    rw [if_neg (by rintro ⟨h0, -⟩; rw [h1] at h0; exact absurd h0 (by decide))]
    unfold DomainPolicy.afterScan
    rw [if_neg (by rw [h1]; simp)]
  · intro h0 hrv
    unfold DomainPolicy.run
    by_cases ht : truthyOpt r.stdout = true
    · rw [if_pos ⟨h0, ht⟩, if_neg (by simp [hrv])]
      unfold DomainPolicy.afterScan
      rw [if_neg (by rw [h0]; simp)]
    · rw [if_neg (by rintro ⟨-, ht'⟩; exact ht ht')]
      unfold DomainPolicy.afterScan
      rw [if_neg (by rw [h0]; simp)]
  · intro h0 ht hrv
    have hrun : DomainPolicy.run r = fail (str "forbidden_domain_found")
        [(str "pattern", JVal.s DomainPolicy.forbiddenPattern),
         (str "match_count", JVal.n ((DomainPolicy.realViolations r).take 50).length),
         (str "matches", JVal.arr (((DomainPolicy.realViolations r).take 50).map JVal.s)),
         (str "message", JVal.s
           (str "Found " ++ natChars ((DomainPolicy.realViolations r).take 50).length ++
            str " actual usage(s) of forbidden domain pattern \x27" ++
            DomainPolicy.forbiddenPattern ++
            str "\x27. All references must use \x27insightpulseai.com\x27.")),
         (str "fix", JVal.s
           (str "Run: find . -type f -not -path \x27*/.git/*\x27 -print0 | xargs -0 perl -pi -e \x27s/insightpulseai\\.net/insightpulseai.com/g\x27"))] := by
      unfold DomainPolicy.run
      rw [if_pos ⟨h0, ht⟩, if_pos hrv]
    rw [hrun]
    refine ⟨rfl, rfl, ?_, ?_, ?_, ?_⟩
    · simp [lookupData, assoc, fail,
        show str "pattern" ≠ str "matches" from by decide,
        show str "match_count" ≠ str "matches" from by decide]
    · simp [List.length_take]
    · simp [lookupData, assoc, fail,
        show str "pattern" ≠ str "match_count" from by decide]
    · simp [lookupData, assoc, fail,
        show str "pattern" ≠ str "fix" from by decide,
        show str "match_count" ≠ str "fix" from by decide,
        show str "matches" ≠ str "fix" from by decide,
        show str "message" ≠ str "fix" from by decide]

/-- C4 witness: a no-match run is `ok`; a run with one real violation and
one meta-reference fails with exactly the one violating line. -/
theorem domain_policy_run_cases_witness :
    DomainPolicy.run rgNone = ok (str "domain_policy_ok") DomainPolicy.okData ∧
    (DomainPolicy.run rgHit).status = Status.fail ∧
    (DomainPolicy.run rgHit).code = str "forbidden_domain_found" ∧
    lookupData (DomainPolicy.run rgHit) (str "matches") =
      some (JVal.arr [JVal.s (str "README.md:3:see https://insightpulseai.net/")]) ∧
    lookupData (DomainPolicy.run rgHit) (str "match_count") = some (JVal.n 1) ∧
    (lookupData (DomainPolicy.run rgHit) (str "fix")).isSome = true := by
  have ha := (domain_policy_run_cases rgNone).1 (by decide)
  have hb := (domain_policy_run_cases rgHit).2.2 (by decide) (by decide) (by decide)
  exact ⟨ha, hb.1, hb.2.1, hb.2.2.1, hb.2.2.2.2.1, hb.2.2.2.2.2⟩

/-- C8: when ripgrep exits with a code other than 0 or 1, `run` fails with
`domain_check_error`, a code distinct from `forbidden_domain_found`. -/
theorem domain_policy_error_code_distinct (r : CmdResult)
    (h0 : r.returncode ≠ 0) (h1 : r.returncode ≠ 1) :
    (DomainPolicy.run r).status = Status.fail ∧
    (DomainPolicy.run r).code = str "domain_check_error" ∧
    str "domain_check_error" ≠ str "forbidden_domain_found" := by
  unfold DomainPolicy.run
  rw [if_neg (by rintro ⟨h, -⟩; exact h0 h)]
  unfold DomainPolicy.afterScan
  rw [if_pos ⟨h0, h1⟩]
  exact ⟨rfl, rfl, by decide⟩

/-- C8 witness: a ripgrep invocation erroring with exit code 2. -/
theorem domain_policy_error_code_distinct_witness :
    (DomainPolicy.run rgErr).status = Status.fail ∧
    (DomainPolicy.run rgErr).code = str "domain_check_error" ∧
    str "domain_check_error" ≠ str "forbidden_domain_found" :=
  domain_policy_error_code_distinct rgErr (by decide) (by decide)

/-- C2 (amended): a non-empty MX answer matching fewer than 3 of the 3
expected Zoho hosts makes the check return `warn root_mx_not_zoho` with
`data.found` holding exactly the matched hosts; an empty (or failed) MX
query instead records a warn entry in the running results and proceeds. -/
theorem mailgun_mx_few_zoho_warn (e : Mailgun.MailgunEnv)
    (h1 : get_secret e.mailgunDomainVar [] = [] ∨
          get_secret e.mailgunDomainVar [] = Mailgun.expectedMg e) :
    (pyLower e.mxRaw ≠ [] → (Mailgun.zohoFound e).length < 3 →
      (Mailgun.run e).status = Status.warn ∧
      (Mailgun.run e).code = str "root_mx_not_zoho" ∧
      lookupData (Mailgun.run e) (str "found") =
        some (JVal.arr ((Mailgun.zohoFound e).map JVal.s))) ∧
    (pyLower e.mxRaw = [] → ∀ rs,
      Mailgun.step2 (Mailgun.rootDomain e) e.mxRaw rs =
        Except.ok (rs ++ [Mailgun.checkEntry (str "root_mx") (str "warn")
          (JVal.s (str "Could not query MX records"))])) := by
  constructor
  · intro hmx hlen
    obtain ⟨rs1, hs1⟩ : ∃ rs1,
        Mailgun.step1 (get_secret e.mailgunDomainVar [])
          (Mailgun.expectedMg e) [] = Except.ok rs1 := by
      rcases h1 with h | h
      · exact ⟨_, by unfold Mailgun.step1; rw [if_neg (by simp [h])]⟩
      · by_cases hd : get_secret e.mailgunDomainVar [] = []
        · exact ⟨_, by unfold Mailgun.step1; rw [if_neg (by simp [hd])]⟩
        · exact ⟨_, by unfold Mailgun.step1; rw [if_pos hd, if_neg (by simp [h])]⟩
    have hlen' : (Mailgun.ZOHO_MX_RECORDS.filter
        (fun z => pyIn z (pyLower e.mxRaw))).length < 3 := hlen
    have hs2 : Mailgun.step2 (Mailgun.rootDomain e) e.mxRaw rs1 =
        Except.error (warn (str "root_mx_not_zoho")
          [(str "root_domain", JVal.s (Mailgun.rootDomain e)),
           (str "mx_records", JVal.arr ((pySplitNl (pyLower e.mxRaw)).map JVal.s)),
           (str "expected", JVal.arr (Mailgun.ZOHO_MX_RECORDS.map JVal.s)),
           (str "found", JVal.arr ((Mailgun.ZOHO_MX_RECORDS.filter
              (fun z => pyIn z (pyLower e.mxRaw))).map JVal.s)),
           (str "message", JVal.s
             (str "Root domain MX should point to Zoho for email receiving"))]) := by
      unfold Mailgun.step2
      rw [if_neg hmx, if_pos hlen']
    have hrun : Mailgun.run e = warn (str "root_mx_not_zoho")
        [(str "root_domain", JVal.s (Mailgun.rootDomain e)),
         (str "mx_records", JVal.arr ((pySplitNl (pyLower e.mxRaw)).map JVal.s)),
         (str "expected", JVal.arr (Mailgun.ZOHO_MX_RECORDS.map JVal.s)),
         (str "found", JVal.arr ((Mailgun.ZOHO_MX_RECORDS.filter
            (fun z => pyIn z (pyLower e.mxRaw))).map JVal.s)),
         (str "message", JVal.s
           (str "Root domain MX should point to Zoho for email receiving"))] := by
      unfold Mailgun.run Mailgun.runCore
      simp only [hs1, hs2]
    rw [hrun]
    refine ⟨rfl, rfl, ?_⟩
    simp [lookupData, assoc, warn, Mailgun.zohoFound,
      show str "root_domain" ≠ str "found" from by decide,
      show str "mx_records" ≠ str "found" from by decide,
      show str "expected" ≠ str "found" from by decide]
  · intro hmx rs
    unfold Mailgun.step2
    rw [if_pos hmx]

/-- C2 witness: an MX answer carrying only `mx.zoho.com` and `mx3.zoho.com`
warns with `data.found` holding exactly those two. -/
theorem mailgun_mx_few_zoho_warn_witness :
    (Mailgun.run mxTwoEnv).status = Status.warn ∧
    (Mailgun.run mxTwoEnv).code = str "root_mx_not_zoho" ∧
    lookupData (Mailgun.run mxTwoEnv) (str "found") =
      some (JVal.arr [JVal.s (str "mx.zoho.com"), JVal.s (str "mx3.zoho.com")]) := by
  have h := (mailgun_mx_few_zoho_warn mxTwoEnv (Or.inl (by decide))).1
    (by decide) (by decide)
  exact ⟨h.1, h.2.1, h.2.2⟩

/-- C2 counterexample: on an empty (failed) MX query the check does not
return `warn root_mx_not_zoho`, contrary to the claim's
"including an empty or failed query". -/
theorem mailgun_empty_mx_cx :
    ¬ ((Mailgun.run mxEmptyEnv).status = Status.warn ∧
       (Mailgun.run mxEmptyEnv).code = str "root_mx_not_zoho") := by
  decide

/-- Any early return out of step 2 carries the code `root_mx_not_zoho`. -/
theorem step2_error_code (root mxRaw : List Char) (rs : List JVal) (r : Result)
    (h : Mailgun.step2 root mxRaw rs = Except.error r) :
    r.code = str "root_mx_not_zoho" := by
  unfold Mailgun.step2 at h
  split at h
  · exact absurd h (by simp)
  · split at h
    · cases h
      rfl
    · exact absurd h (by simp)

/-- Any early return out of step 3 carries one of the two SPF warn codes. -/
theorem step3_error_code (root rootTxt : List Char) (rs : List JVal) (r : Result)
    (h : Mailgun.step3 root rootTxt rs = Except.error r) :
    r.code = str "spf_missing" ∨ r.code = str "spf_missing_includes" := by
  unfold Mailgun.step3 at h
  split at h
  · cases h
    exact Or.inl rfl
  · split at h
    · cases h
      exact Or.inr rfl
    · exact absurd h (by simp)

/-- Any early return out of step 4 carries the code `dmarc_missing`. -/
theorem step4_error_code (root dmarcTxt : List Char) (rs : List JVal) (r : Result)
    (h : Mailgun.step4 root dmarcTxt rs = Except.error r) :
    r.code = str "dmarc_missing" := by
  unfold Mailgun.step4 at h
  split at h
  · cases h
    rfl
  · exact absurd h (by simp)

/-- Any early return out of step 5 carries one of the two subdomain SPF
warn codes. -/
theorem step5_error_code (expected mgTxt : List Char) (rs : List JVal) (r : Result)
    (h : Mailgun.step5 expected mgTxt rs = Except.error r) :
    r.code = str "mg_spf_missing" ∨ r.code = str "mg_spf_invalid" := by
  unfold Mailgun.step5 at h
  split at h
  · cases h
    exact Or.inl rfl
  · split at h
    · cases h
      exact Or.inr rfl
    · exact absurd h (by simp)

/-- Step 6 only produces one of its five codes. -/
theorem step6_codes (domain api_key root expected : List Char) (aS : Bool)
    (aSt : Option Nat) (aE : Option (List Char)) (rs : List JVal) :
    (Mailgun.step6 domain api_key root expected aS aSt aE rs).code =
        str "mailgun_dns_checks_passed" ∨
    (Mailgun.step6 domain api_key root expected aS aSt aE rs).code =
        str "mailgun_auth_failed" ∨
    (Mailgun.step6 domain api_key root expected aS aSt aE rs).code =
        str "mailgun_domain_not_found" ∨
    (Mailgun.step6 domain api_key root expected aS aSt aE rs).code =
        str "mailgun_api_error" ∨
    (Mailgun.step6 domain api_key root expected aS aSt aE rs).code =
        str "mailgun_full_check_passed" := by
  unfold Mailgun.step6
  split_ifs <;> simp [ok, fail, warn]

/-- With MAILGUN_DOMAIN stripped to empty, no reachable branch of the check
produces the step-1 mismatch code. -/
theorem runCore_unset_no_mismatch (api_key root expected mxRaw rootTxt dmarcTxt
    mgTxt : List Char) (aS : Bool) (aSt : Option Nat) (aE : Option (List Char)) :
    (Mailgun.runCore [] api_key root expected mxRaw rootTxt dmarcTxt mgTxt
      aS aSt aE).code ≠ str "mailgun_domain_mismatch" := by
  unfold Mailgun.runCore
  have hs1 : Mailgun.step1 [] expected [] =
      Except.ok [Mailgun.checkEntry (str "mailgun_domain") (str "skip")
        (JVal.s (str "MAILGUN_DOMAIN not set"))] := by
    unfold Mailgun.step1
    rw [if_neg (by simp)]
    simp
  simp only [hs1]
  split
  next r2 h2 =>
    rw [step2_error_code _ _ _ _ h2]
    decide
  next rs2 h2 =>
    split
    next r3 h3 =>
      rcases step3_error_code _ _ _ _ h3 with h | h <;> rw [h] <;> decide
    next rs3 h3 =>
      split
      next r4 h4 =>
        rw [step4_error_code _ _ _ _ h4]
        decide
      next rs4 h4 =>
        split
        next r5 h5 =>
          rcases step5_error_code _ _ _ _ h5 with h | h <;> rw [h] <;> decide
        next rs5 h5 =>
          rcases step6_codes [] api_key root expected aS aSt aE rs5 with
            h | h | h | h | h <;> rw [h] <;> decide

/-- C6: a set sending-subdomain variable differing from the expected
subdomain makes `run` fail with `mailgun_domain_mismatch`, carrying the
expected and actual values in data (the expected value being
`mg.insightpulseai.com` under the default root domain); an absent variable
records a skip entry at step 1, proceeds, and can never produce the
mismatch code. -/
theorem mailgun_domain_mismatch_cases (e : Mailgun.MailgunEnv) :
    (get_secret e.mailgunDomainVar [] ≠ [] →
      get_secret e.mailgunDomainVar [] ≠ Mailgun.expectedMg e →
      (Mailgun.run e).status = Status.fail ∧
      (Mailgun.run e).code = str "mailgun_domain_mismatch" ∧
      lookupData (Mailgun.run e) (str "expected") =
        some (JVal.s (Mailgun.expectedMg e)) ∧
      lookupData (Mailgun.run e) (str "actual") =
        some (JVal.s (get_secret e.mailgunDomainVar []))) ∧
    (e.rootDomainVar = none → e.expectedMgVar = none →
      Mailgun.expectedMg e = str "mg.insightpulseai.com") ∧
    (get_secret e.mailgunDomainVar [] = [] →
      Mailgun.step1 (get_secret e.mailgunDomainVar []) (Mailgun.expectedMg e) [] =
        Except.ok [Mailgun.checkEntry (str "mailgun_domain") (str "skip")
          (JVal.s (str "MAILGUN_DOMAIN not set"))] ∧
      (Mailgun.run e).code ≠ str "mailgun_domain_mismatch") := by
  refine ⟨?_, ?_, ?_⟩
  · intro hd hne
    have hs1 : Mailgun.step1 (get_secret e.mailgunDomainVar [])
        (Mailgun.expectedMg e) [] =
        Except.error (fail (str "mailgun_domain_mismatch")
          [(str "expected", JVal.s (Mailgun.expectedMg e)),
           (str "actual", JVal.s (get_secret e.mailgunDomainVar [])),
           (str "message", JVal.s
             (str "MAILGUN_DOMAIN must be \x27" ++ Mailgun.expectedMg e ++
              str "\x27, not \x27" ++ get_secret e.mailgunDomainVar [] ++
              str "\x27"))]) := by
      unfold Mailgun.step1
      rw [if_pos hd, if_pos hne]
    have hrun : Mailgun.run e = fail (str "mailgun_domain_mismatch")
        [(str "expected", JVal.s (Mailgun.expectedMg e)),
         (str "actual", JVal.s (get_secret e.mailgunDomainVar [])),
         (str "message", JVal.s
           (str "MAILGUN_DOMAIN must be \x27" ++ Mailgun.expectedMg e ++
            str "\x27, not \x27" ++ get_secret e.mailgunDomainVar [] ++
            str "\x27"))] := by
      unfold Mailgun.run Mailgun.runCore
      simp only [hs1]
    rw [hrun]
    refine ⟨rfl, rfl, ?_, ?_⟩
    · simp [lookupData, assoc, fail]
    · simp [lookupData, assoc, fail,
        show str "expected" ≠ str "actual" from by decide]
  · intro h1 h2
    unfold Mailgun.expectedMg Mailgun.rootDomain
    rw [h1, h2]
    decide
  · intro hd
    constructor
    · unfold Mailgun.step1
      rw [if_neg (by simp [hd])]
      simp
    · unfold Mailgun.run
      rw [hd]
      exact runCore_unset_no_mismatch _ _ _ _ _ _ _ _ _ _

/-- C6 witness: `MAILGUN_DOMAIN="wrong.com"` under default configuration
fails with the expected value `mg.insightpulseai.com`; an unset
MAILGUN_DOMAIN records a skip and never yields the mismatch code. -/
theorem mailgun_domain_mismatch_cases_witness :
    (Mailgun.run mismatchEnv).status = Status.fail ∧
    (Mailgun.run mismatchEnv).code = str "mailgun_domain_mismatch" ∧
    lookupData (Mailgun.run mismatchEnv) (str "expected") =
      some (JVal.s (str "mg.insightpulseai.com")) ∧
    lookupData (Mailgun.run mismatchEnv) (str "actual") =
      some (JVal.s (str "wrong.com")) ∧
    (Mailgun.run skipProbeEnv).code ≠ str "mailgun_domain_mismatch" := by
  have h := (mailgun_domain_mismatch_cases mismatchEnv).1 (by decide) (by decide)
  have h2 := ((mailgun_domain_mismatch_cases skipProbeEnv).2.2 (by decide)).2
  exact ⟨h.1, h.2.1, h.2.2.1, h.2.2.2, h2⟩

/-- C5: with steps 1 through 5 passing and credentials supplied, the result
is decided by the API response: 401 fails with `mailgun_auth_failed` whose
`data.api_key` is the redacted key (and never the raw key, whenever the
redaction differs from it); 404 fails with `mailgun_domain_not_found`; any
other non-success warns; success is `ok` carrying the accumulated checks. -/
theorem mailgun_api_case_analysis (e : Mailgun.MailgunEnv)
    (hd : get_secret e.mailgunDomainVar [] ≠ [])
    (hde : get_secret e.mailgunDomainVar [] = Mailgun.expectedMg e)
    (hmx : pyLower e.mxRaw ≠ [])
    (hz : ¬ (Mailgun.zohoFound e).length < 3)
    (hinc : Mailgun.REQUIRED_SPF_INCLUDES.filter
      (fun inc => !(pyIn inc e.rootTxt)) = [])
    (hspf : pyIn (str "v=spf1") e.rootTxt = true)
    (hdm : pyIn (str "v=DMARC1") e.dmarcTxt = true)
    (hmg1 : pyIn (str "v=spf1") e.mgTxt = true)
    (hmg2 : pyIn (str "include:mailgun.org") e.mgTxt = true)
    (hk : get_secret e.apiKeyVar [] ≠ []) :
    (e.apiSuccess = false → e.apiStatus = some 401 →
      (Mailgun.run e).status = Status.fail ∧
      (Mailgun.run e).code = str "mailgun_auth_failed" ∧
      lookupData (Mailgun.run e) (str "api_key") =
        some (JVal.s (redact (get_secret e.apiKeyVar []) 4)) ∧
      (redact (get_secret e.apiKeyVar []) 4 ≠ get_secret e.apiKeyVar [] →
        lookupData (Mailgun.run e) (str "api_key") ≠
          some (JVal.s (get_secret e.apiKeyVar [])))) ∧
    (e.apiSuccess = false → e.apiStatus = some 404 →
      (Mailgun.run e).status = Status.fail ∧
      (Mailgun.run e).code = str "mailgun_domain_not_found") ∧
    (e.apiSuccess = false → e.apiStatus ≠ some 401 → e.apiStatus ≠ some 404 →
      (Mailgun.run e).status = Status.warn ∧
      (Mailgun.run e).code = str "mailgun_api_error") ∧
    (e.apiSuccess = true →
      Mailgun.run e = ok (str "mailgun_full_check_passed")
        [(str "checks", JVal.arr (Mailgun.passedChecks e ++
            [Mailgun.checkEntry (str "mailgun_api") (str "ok")
              (JVal.s (get_secret e.mailgunDomainVar []))])),
         (str "root_domain", JVal.s (Mailgun.rootDomain e)),
         (str "mg_domain", JVal.s (get_secret e.mailgunDomainVar [])),
         (str "api_key", JVal.s (redact (get_secret e.apiKeyVar []) 4))]) := by
  have hz' : ¬ (Mailgun.ZOHO_MX_RECORDS.filter
      (fun z => pyIn z (pyLower e.mxRaw))).length < 3 := hz
  have hs1 : Mailgun.step1 (get_secret e.mailgunDomainVar [])
      (Mailgun.expectedMg e) [] = Except.ok
        [Mailgun.checkEntry (str "mailgun_domain") (str "ok")
          (JVal.s (Mailgun.expectedMg e))] := by
    unfold Mailgun.step1
    rw [if_pos hd, if_neg (by simp [hde])]
    simp
  have hs2 : Mailgun.step2 (Mailgun.rootDomain e) e.mxRaw
      [Mailgun.checkEntry (str "mailgun_domain") (str "ok")
        (JVal.s (Mailgun.expectedMg e))] = Except.ok
        [Mailgun.checkEntry (str "mailgun_domain") (str "ok")
          (JVal.s (Mailgun.expectedMg e)),
         Mailgun.checkEntry (str "root_mx") (str "ok")
          (JVal.arr ((Mailgun.zohoFound e).map JVal.s))] := by
    unfold Mailgun.step2
    rw [if_neg hmx, if_neg hz']
    rfl
  have hs3 : Mailgun.step3 (Mailgun.rootDomain e) e.rootTxt
      [Mailgun.checkEntry (str "mailgun_domain") (str "ok")
        (JVal.s (Mailgun.expectedMg e)),
       Mailgun.checkEntry (str "root_mx") (str "ok")
        (JVal.arr ((Mailgun.zohoFound e).map JVal.s))] = Except.ok
        [Mailgun.checkEntry (str "mailgun_domain") (str "ok")
          (JVal.s (Mailgun.expectedMg e)),
         Mailgun.checkEntry (str "root_mx") (str "ok")
          (JVal.arr ((Mailgun.zohoFound e).map JVal.s)),
         Mailgun.checkEntry (str "root_spf") (str "ok") (JVal.s e.rootTxt)] := by
    unfold Mailgun.step3
    rw [if_neg (by simp [hspf]), if_neg (by simp [hinc])]
    rfl
  have hs4 : Mailgun.step4 (Mailgun.rootDomain e) e.dmarcTxt
      [Mailgun.checkEntry (str "mailgun_domain") (str "ok")
        (JVal.s (Mailgun.expectedMg e)),
       Mailgun.checkEntry (str "root_mx") (str "ok")
        (JVal.arr ((Mailgun.zohoFound e).map JVal.s)),
       Mailgun.checkEntry (str "root_spf") (str "ok") (JVal.s e.rootTxt)] =
      Except.ok
        [Mailgun.checkEntry (str "mailgun_domain") (str "ok")
          (JVal.s (Mailgun.expectedMg e)),
         Mailgun.checkEntry (str "root_mx") (str "ok")
          (JVal.arr ((Mailgun.zohoFound e).map JVal.s)),
         Mailgun.checkEntry (str "root_spf") (str "ok") (JVal.s e.rootTxt),
         Mailgun.checkEntry (str "dmarc") (str "ok") (JVal.s e.dmarcTxt)] := by
    unfold Mailgun.step4
    rw [if_neg (by simp [hdm])]
    rfl
  have hs5 : Mailgun.step5 (Mailgun.expectedMg e) e.mgTxt
      [Mailgun.checkEntry (str "mailgun_domain") (str "ok")
        (JVal.s (Mailgun.expectedMg e)),
       Mailgun.checkEntry (str "root_mx") (str "ok")
        (JVal.arr ((Mailgun.zohoFound e).map JVal.s)),
       Mailgun.checkEntry (str "root_spf") (str "ok") (JVal.s e.rootTxt),
       Mailgun.checkEntry (str "dmarc") (str "ok") (JVal.s e.dmarcTxt)] =
      Except.ok (Mailgun.passedChecks e) := by
    unfold Mailgun.step5
    rw [if_neg (by simp [hmg1]), if_neg (by simp [hmg2])]
    rfl
  have hrun : Mailgun.run e = Mailgun.step6 (get_secret e.mailgunDomainVar [])
      (get_secret e.apiKeyVar []) (Mailgun.rootDomain e) (Mailgun.expectedMg e)
      e.apiSuccess e.apiStatus e.apiError (Mailgun.passedChecks e) := by
    unfold Mailgun.run Mailgun.runCore
    simp only [hs1, hs2, hs3, hs4, hs5]
  have hcred : ¬ (get_secret e.apiKeyVar [] = [] ∨
      get_secret e.mailgunDomainVar [] = []) := by
    rintro (h | h)
    · exact hk h
    · exact hd h
  refine ⟨?_, ?_, ?_, ?_⟩
  · intro hsucc hst
    have h6 : Mailgun.run e = fail (str "mailgun_auth_failed")
        [(str "domain", JVal.s (get_secret e.mailgunDomainVar [])),
         (str "api_key", JVal.s (redact (get_secret e.apiKeyVar []) 4)),
         (str "error", JVal.s (str "Authentication failed - check API key"))] := by
      rw [hrun]
      unfold Mailgun.step6
      rw [if_neg hcred, if_pos hsucc, if_pos hst]
    rw [h6]
    refine ⟨rfl, rfl, ?_, ?_⟩
    · simp [lookupData, assoc, fail,
        show str "domain" ≠ str "api_key" from by decide]
    · intro hne hcontra
      have : JVal.s (redact (get_secret e.apiKeyVar []) 4) =
          JVal.s (get_secret e.apiKeyVar []) := by
        have hl : lookupData (fail (str "mailgun_auth_failed")
            [(str "domain", JVal.s (get_secret e.mailgunDomainVar [])),
             (str "api_key", JVal.s (redact (get_secret e.apiKeyVar []) 4)),
             (str "error", JVal.s (str "Authentication failed - check API key"))])
            (str "api_key") =
            some (JVal.s (redact (get_secret e.apiKeyVar []) 4)) := by
          simp [lookupData, assoc, fail,
            show str "domain" ≠ str "api_key" from by decide]
        rw [hl] at hcontra
        exact Option.some.inj hcontra
      exact hne (by injection this)
  · intro hsucc hst
    have h6 : Mailgun.run e = fail (str "mailgun_domain_not_found")
        [(str "domain", JVal.s (get_secret e.mailgunDomainVar [])),
         (str "error", JVal.s
           (str "Domain \x27" ++ get_secret e.mailgunDomainVar [] ++
            str "\x27 not found in Mailgun account"))] := by
      rw [hrun]
      unfold Mailgun.step6
      rw [if_neg hcred, if_pos hsucc, if_neg (by simp [hst]), if_pos hst]
    rw [h6]
    exact ⟨rfl, rfl⟩
  · intro hsucc h401 h404
    have h6 : (Mailgun.run e).status = Status.warn ∧
        (Mailgun.run e).code = str "mailgun_api_error" := by
      rw [hrun]
      unfold Mailgun.step6
      rw [if_neg hcred, if_pos hsucc, if_neg h401, if_neg h404]
      exact ⟨rfl, rfl⟩
    exact h6
  · intro hsucc
    rw [hrun]
    unfold Mailgun.step6
    rw [if_neg hcred, if_neg (by rw [hsucc]; simp)]

/-- C5 witness: all DNS steps pass, credentials are present, and the API
answers 401: the check fails with `mailgun_auth_failed` and the key
`key-3a7f9c2e` appears only in redacted form. -/
theorem mailgun_api_case_analysis_witness :
    (Mailgun.run apiAuthFailEnv).status = Status.fail ∧
    (Mailgun.run apiAuthFailEnv).code = str "mailgun_auth_failed" ∧
    lookupData (Mailgun.run apiAuthFailEnv) (str "api_key") =
      some (JVal.s (str "********9c2e")) ∧
    lookupData (Mailgun.run apiAuthFailEnv) (str "api_key") ≠
      some (JVal.s (str "key-3a7f9c2e")) := by
  have h := (mailgun_api_case_analysis apiAuthFailEnv (by decide) (by decide)
    (by decide) (by decide) (by decide) (by decide) (by decide) (by decide)
    (by decide) (by decide)).1 rfl rfl
  exact ⟨h.1, h.2.1, h.2.2.1, h.2.2.2 (by decide)⟩

end Audit
